import Mathlib

/-!
Verification of the scene/camera/interaction core of the 3D portfolio app
(`src/App.jsx`).  The `SceneManager` component owns the scene graph, a
per-frame animation loop, raycaster-based object picking and camera fly-to
transitions keyed by the current navigation section.  The definitions below
are a shallow embedding of that code: vectors are triples of rationals,
`THREE.Vector3.lerpVectors` becomes componentwise rational interpolation,
the raycaster's documented contract (intersections sorted by ascending
distance) is modelled by an insertion sort over per-object intersection
distances, and React state/effect semantics are modelled where the
navigation controller relies on them.
-/

namespace Portfolio3D

/-- A 3D vector with rational coordinates (models `THREE.Vector3`). -/
structure Vec3 where
  x : ℚ
  y : ℚ
  z : ℚ
  deriving DecidableEq, Repr

/-- A named camera viewpoint: a position and a look-at target
(one entry of the `CAMERA_POSITIONS` table in `App.jsx`). -/
structure CameraPose where
  position : Vec3
  target : Vec3
  deriving DecidableEq, Repr

/-- The `CAMERA_POSITIONS` constant of `App.jsx`: the fixed mapping from
section name to camera pose.  A JavaScript property access on the object
literal yields `undefined` for any other key, modelled by `none`. -/
def CAMERA_POSITIONS (s : String) : Option CameraPose :=
  if s = "home" then some ⟨⟨0, 0, 12⟩, ⟨0, 0, 0⟩⟩
  else if s = "about" then some ⟨⟨-8, 3, 8⟩, ⟨-2, 0, 0⟩⟩
  else if s = "skills" then some ⟨⟨8, 3, 8⟩, ⟨2, 0, 0⟩⟩
  else if s = "experience" then some ⟨⟨0, -6, 10⟩, ⟨0, -2, 0⟩⟩
  else if s = "projects" then some ⟨⟨0, 8, 15⟩, ⟨0, 2, 0⟩⟩
  else if s = "contact" then some ⟨⟨0, 0, 20⟩, ⟨0, 0, 0⟩⟩
  else none

/-- The `home` entry of `CAMERA_POSITIONS`. -/
def homePose : CameraPose := ⟨⟨0, 0, 12⟩, ⟨0, 0, 0⟩⟩

/-- The pose the camera-animation effect resolves when a transition starts:
`const targetConfig = CAMERA_POSITIONS[currentSection] || CAMERA_POSITIONS.home`
(`App.jsx` line 316). -/
def targetConfig (currentSection : String) : CameraPose :=
  (CAMERA_POSITIONS currentSection).getD homePose

/-- The six section identifiers that key `CAMERA_POSITIONS`. -/
def knownSections : List String :=
  ["home", "about", "skills", "experience", "projects", "contact"]

/-- C1: starting a camera transition to any section identifier `s` resolves a
target pose: the pose `CAMERA_POSITIONS` maps `s` to when `s` is one of the
six known sections, and the `home` pose otherwise; the lookup is total. -/
theorem targetConfig_total (s : String) :
    ∃ p : CameraPose, targetConfig s = p ∧
      (s ∈ knownSections → CAMERA_POSITIONS s = some p) ∧
      (s ∉ knownSections → p = homePose) := by
  refine ⟨targetConfig s, rfl, ?_, ?_⟩
  · intro hs
    simp only [knownSections, List.mem_cons, List.not_mem_nil, or_false] at hs
    rcases hs with h | h | h | h | h | h <;> subst h <;> rfl
  · intro hs
    have hnone : CAMERA_POSITIONS s = none := by
      simp only [knownSections, List.mem_cons, List.not_mem_nil, or_false, not_or] at hs
      obtain ⟨h1, h2, h3, h4, h5, h6⟩ := hs
      simp [CAMERA_POSITIONS, h1, h2, h3, h4, h5, h6]
    simp [targetConfig, hnone]

/-- Witness for C1: the unrecognized identifier `"blog"` resolves to the home
pose, and the recognized identifier `"skills"` resolves to its mapped pose. -/
theorem targetConfig_total_witness :
    targetConfig "blog" = homePose ∧
      CAMERA_POSITIONS "skills" = some (targetConfig "skills") := by
  constructor
  · obtain ⟨p, hp, _, hfall⟩ := targetConfig_total "blog"
    rw [hp]; exact hfall (by decide)
  · obtain ⟨p, hp, hknown, _⟩ := targetConfig_total "skills"
    rw [hp]; exact hknown (by decide)

/-- One coordinate of `THREE.Vector3.lerpVectors(v1, v2, alpha)`:
`v1 + (v2 - v1) * alpha`.  Also the formula of `Vector3.lerp`. -/
def lerpQ (a b t : ℚ) : ℚ := a + (b - a) * t

/-- `THREE.Vector3.lerpVectors(v1, v2, alpha)`, componentwise. -/
def lerpVec (a b : Vec3) (t : ℚ) : Vec3 :=
  ⟨lerpQ a.x b.x t, lerpQ a.y b.y t, lerpQ a.z b.z t⟩

/-- The cubic ease-out `1 - Math.pow(1 - progress, 3)` used by
`animateCamera` (`App.jsx` line 328). -/
def ease (t : ℚ) : ℚ := 1 - (1 - t) ^ 3

/-- The closure state of one `animateCamera` callback chain
(`App.jsx` lines 319-334): the captured `startPosition` (a clone of the
camera position when the effect ran), the `targetPosition`, and the mutable
`progress` variable. -/
structure Transition where
  startPosition : Vec3
  targetPosition : Vec3
  progress : ℚ
  deriving DecidableEq, Repr

/-- One invocation of `animateCamera`: `progress += 0.02`; while
`progress <= 1` it writes
`camera.position.lerpVectors(startPosition, targetPosition, ease(progress))`
and re-schedules itself; past 1 it stops and leaves the position alone. -/
def stepTransition (tr : Transition) (pos : Vec3) : Transition × Vec3 :=
  if tr.progress + 2 / 100 ≤ 1 then
    (⟨tr.startPosition, tr.targetPosition, tr.progress + 2 / 100⟩,
      lerpVec tr.startPosition tr.targetPosition (ease (tr.progress + 2 / 100)))
  else
    (⟨tr.startPosition, tr.targetPosition, tr.progress + 2 / 100⟩, pos)

/-- Starting a new transition on a navigation change: the effect captures
`camera.position.clone()` as the interpolation start and resets progress
to 0 (`App.jsx` lines 319-322). -/
def retrigger (pos target : Vec3) : Transition := ⟨pos, target, 0⟩

/-- One animation frame while two `animateCamera` chains are in flight:
`requestAnimationFrame` callbacks run in registration order, so the
superseded chain writes the camera position first and the newer chain
writes after it; the position left for rendering is the last write. -/
def frameStep (s : Transition × Transition × Vec3) : Transition × Transition × Vec3 :=
  ((stepTransition s.1 s.2.2).1,
    (stepTransition s.2.1 (stepTransition s.1 s.2.2).2).1,
    (stepTransition s.2.1 (stepTransition s.1 s.2.2).2).2)

/-- `n` animation frames of the two in-flight transition chains. -/
def iterateFrames : ℕ → (Transition × Transition × Vec3) → Transition × Transition × Vec3
  | 0, s => s
  | n + 1, s => iterateFrames n (frameStep s)

/-- While the newer transition is still interpolating, its chain always
performs the last write of the frame, so after `j` frames the newer
transition has advanced to progress `q + j * 0.02` and the observed camera
position is its eased interpolation — whatever the superseded chain did. -/
theorem iterateFrames_newer (p0 T : Vec3) :
    ∀ (j : ℕ) (old : Transition) (q : ℚ) (pos : Vec3),
      q + j * (2 / 100) ≤ 1 →
      (iterateFrames j (old, ⟨p0, T, q⟩, pos)).2 =
        (⟨p0, T, q + j * (2 / 100)⟩,
          if j = 0 then pos else lerpVec p0 T (ease (q + j * (2 / 100)))) := by
  intro j
  induction j with
  | zero =>
    intro old q pos _
    simp [iterateFrames]
  | succ j ih =>
    intro old q pos hq
    have hstep : q + 2 / 100 ≤ 1 := by
      have : (0 : ℚ) ≤ j * (2 / 100) := by positivity
      push_cast at hq
      linarith
    have hrest : (q + 2 / 100) + j * (2 / 100) ≤ 1 := by
      push_cast at hq ⊢
      linarith
    have hframe :
        frameStep (old, ⟨p0, T, q⟩, pos) =
          ((stepTransition old pos).1, ⟨p0, T, q + 2 / 100⟩,
            lerpVec p0 T (ease (q + 2 / 100))) := by
      simp [frameStep, stepTransition, hstep]
    rw [iterateFrames, hframe, ih ((stepTransition old pos).1) (q + 2 / 100) _ hrest]
    have harith : q + 2 / 100 + j * (2 / 100) = q + (j + 1 : ℕ) * (2 / 100) := by
      push_cast
      ring
    rcases Nat.eq_zero_or_pos j with hj | hj
    · subst hj
      simp only [Nat.cast_zero, zero_mul, add_zero, if_neg (Nat.succ_ne_zero 0)]
      norm_num
    · rw [if_neg (Nat.pos_iff_ne_zero.mp hj), if_neg (Nat.succ_ne_zero j), harith]

/-- C2: a navigation request arriving mid-flight starts its interpolation at
the camera's position `p0` at the moment of the request, and on every
subsequent frame the observed camera position equals the eased interpolation
from `p0` to the new target — an expression independent of the superseded
transition `old` — and lies on the segment between `p0` and the new target,
so it never jumps to the previous transition's destination pose. -/
theorem retrigger_no_snap (old : Transition) (p0 T : Vec3) (k : ℕ)
    (hk : ((k : ℚ) + 1) * (2 / 100) ≤ 1) :
    (retrigger p0 T).startPosition = p0 ∧
    (iterateFrames (k + 1) (old, retrigger p0 T, p0)).2.2 =
      lerpVec p0 T (ease (((k : ℚ) + 1) * (2 / 100))) ∧
    ∃ e : ℚ, 0 ≤ e ∧ e ≤ 1 ∧
      (iterateFrames (k + 1) (old, retrigger p0 T, p0)).2.2 = lerpVec p0 T e := by
  have hq : (0 : ℚ) + (k + 1 : ℕ) * (2 / 100) ≤ 1 := by
    push_cast
    linarith
  have hmain := iterateFrames_newer p0 T (k + 1) old 0 p0 hq
  have hpos : (iterateFrames (k + 1) (old, retrigger p0 T, p0)).2.2 =
      lerpVec p0 T (ease (((k : ℚ) + 1) * (2 / 100))) := by
    have := congrArg Prod.snd hmain
    simp only [retrigger] at *
    rw [hmain]
    simp only [if_neg (Nat.succ_ne_zero k)]
    push_cast
    ring_nf
  refine ⟨rfl, hpos, ease (((k : ℚ) + 1) * (2 / 100)), ?_, ?_, hpos⟩
  · have ht0 : (0 : ℚ) < ((k : ℚ) + 1) * (2 / 100) := by positivity
    have ht1 : ((k : ℚ) + 1) * (2 / 100) ≤ 1 := hk
    unfold ease
    nlinarith [pow_le_one₀ (by linarith : (0:ℚ) ≤ 1 - ((k : ℚ) + 1) * (2 / 100)) (by linarith : 1 - ((k : ℚ) + 1) * (2 / 100) ≤ 1) (n := 3)]
  · have ht0 : (0 : ℚ) < ((k : ℚ) + 1) * (2 / 100) := by positivity
    unfold ease
    nlinarith [pow_nonneg (by linarith : (0:ℚ) ≤ 1 - ((k : ℚ) + 1) * (2 / 100)) 3]

/-- Witness for C2 at concrete inputs: a superseded transition halfway to
`(5,5,5)`, a retrigger at position `(1,2,3)` toward `(0,0,12)`, one frame. -/
theorem retrigger_no_snap_witness :
    (((0 : ℕ) : ℚ) + 1) * (2 / 100) ≤ 1 ∧
      (iterateFrames 1 (⟨⟨0, 0, 0⟩, ⟨5, 5, 5⟩, 1 / 2⟩, retrigger ⟨1, 2, 3⟩ ⟨0, 0, 12⟩,
          ⟨1, 2, 3⟩)).2.2 =
        lerpVec ⟨1, 2, 3⟩ ⟨0, 0, 12⟩ (ease ((((0 : ℕ) : ℚ) + 1) * (2 / 100))) := by
  constructor
  · norm_num
  · exact (retrigger_no_snap ⟨⟨0, 0, 0⟩, ⟨5, 5, 5⟩, 1 / 2⟩ ⟨1, 2, 3⟩ ⟨0, 0, 12⟩ 0
      (by norm_num)).2.1

/-- The camera position written at interpolation parameter `t` of a
transition from `s` to `d`: the body of `animateCamera` writes
`lerpVectors(start, target, 1 - (1-t)^3)` while `t <= 1` and otherwise
leaves the previous position `prev` in place. -/
def cameraPosAt (s d prev : Vec3) (t : ℚ) : Vec3 :=
  if t ≤ 1 then lerpVec s d (ease t) else prev

/-- If an eased interpolation at coefficient `e ≠ 0`, `e ≠ 1` lands on an
endpoint, the two endpoints coincide. -/
theorem lerpVec_ne_endpoints {s d : Vec3} {e : ℚ} (h0 : 0 < e) (h1 : e < 1)
    (hne : s ≠ d) : lerpVec s d e ≠ s ∧ lerpVec s d e ≠ d := by
  obtain ⟨sx, sy, sz⟩ := s
  obtain ⟨dx, dy, dz⟩ := d
  constructor
  · intro h
    simp only [lerpVec, lerpQ, Vec3.mk.injEq] at h
    obtain ⟨hx, hy, hz⟩ := h
    apply hne
    simp only [Vec3.mk.injEq]
    have ex : dx = sx := by
      have : (dx - sx) * e = 0 := by linarith
      rcases mul_eq_zero.mp this with h | h
      · linarith
      · exact absurd h (ne_of_gt h0)
    have ey : dy = sy := by
      have : (dy - sy) * e = 0 := by linarith
      rcases mul_eq_zero.mp this with h | h
      · linarith
      · exact absurd h (ne_of_gt h0)
    have ez : dz = sz := by
      have : (dz - sz) * e = 0 := by linarith
      rcases mul_eq_zero.mp this with h | h
      · linarith
      · exact absurd h (ne_of_gt h0)
    exact ⟨ex.symm, ey.symm, ez.symm⟩
  · intro h
    simp only [lerpVec, lerpQ, Vec3.mk.injEq] at h
    obtain ⟨hx, hy, hz⟩ := h
    apply hne
    simp only [Vec3.mk.injEq]
    have he : e - 1 ≠ 0 := by intro h; apply absurd (by linarith : e = 1) (ne_of_lt h1)
    have ex : sx = dx := by
      have : (sx - dx) * (e - 1) = 0 := by ring_nf; ring_nf at hx; linarith
      rcases mul_eq_zero.mp this with h | h
      · linarith
      · exact absurd h he
    have ey : sy = dy := by
      have : (sy - dy) * (e - 1) = 0 := by ring_nf; ring_nf at hy; linarith
      rcases mul_eq_zero.mp this with h | h
      · linarith
      · exact absurd h he
    have ez : sz = dz := by
      have : (sz - dz) * (e - 1) = 0 := by ring_nf; ring_nf at hz; linarith
      rcases mul_eq_zero.mp this with h | h
      · linarith
      · exact absurd h he
    exact ⟨ex, ey, ez⟩

/-- C7: at every interpolation parameter `t` strictly between 0 and 1 of a
transition with distinct start `s` and destination `d`, the camera position
equals the interpolation of `s` and `d` at the eased coefficient
`1 - (1-t)^3`, and that coefficient lies strictly inside `(0,1)`, so the
position is strictly between the two poses and never beyond either. -/
theorem cameraPosAt_strictly_between (s d prev : Vec3) (t : ℚ)
    (h0 : 0 < t) (h1 : t < 1) (hne : s ≠ d) :
    cameraPosAt s d prev t = lerpVec s d (ease t) ∧
    0 < ease t ∧ ease t < 1 ∧
    cameraPosAt s d prev t ≠ s ∧ cameraPosAt s d prev t ≠ d := by
  have hcam : cameraPosAt s d prev t = lerpVec s d (ease t) := by
    unfold cameraPosAt
    rw [if_pos (le_of_lt h1)]
  have he0 : 0 < ease t := by
    unfold ease
    nlinarith [pow_lt_one₀ (by linarith : (0:ℚ) ≤ 1 - t) (by linarith : 1 - t < 1)
      (by norm_num : 3 ≠ 0)]
  have he1 : ease t < 1 := by
    unfold ease
    nlinarith [pow_pos (by linarith : (0:ℚ) < 1 - t) 3]
  obtain ⟨hns, hnd⟩ := lerpVec_ne_endpoints he0 he1 hne
  exact ⟨hcam, he0, he1, hcam ▸ hns, hcam ▸ hnd⟩

/-- Witness for C7 at `t = 1/2` on the home-to-about transition: the eased
coefficient is `7/8` and the position is strictly between the poses. -/
theorem cameraPosAt_strictly_between_witness :
    cameraPosAt ⟨0, 0, 12⟩ ⟨-8, 3, 8⟩ ⟨0, 0, 0⟩ (1 / 2) =
        lerpVec ⟨0, 0, 12⟩ ⟨-8, 3, 8⟩ (ease (1 / 2)) ∧
      cameraPosAt ⟨0, 0, 12⟩ ⟨-8, 3, 8⟩ ⟨0, 0, 0⟩ (1 / 2) ≠ ⟨0, 0, 12⟩ ∧
      cameraPosAt ⟨0, 0, 12⟩ ⟨-8, 3, 8⟩ ⟨0, 0, 0⟩ (1 / 2) ≠ ⟨-8, 3, 8⟩ := by
  obtain ⟨hcam, _, _, hns, hnd⟩ :=
    cameraPosAt_strictly_between ⟨0, 0, 12⟩ ⟨-8, 3, 8⟩ ⟨0, 0, 0⟩ (1 / 2)
      (by norm_num) (by norm_num) (by decide)
  exact ⟨hcam, hns, hnd⟩

/-- The decorative fields written by the frame loop each tick
(`App.jsx` lines 344-356 and 383-388): the particle field's rotation, the
core object's rotation, the key light's animated position components, and
the rim light's intensity.  (The key light's y component is never written
by the loop.) -/
structure DecorState where
  particlesRotY : ℚ
  particlesRotX : ℚ
  coreRotY : ℚ
  coreRotX : ℚ
  keyLightPosX : ℚ
  keyLightPosZ : ℚ
  rimIntensity : ℚ
  deriving DecidableEq, Repr

/-- One tick of the decorative part of `animate` at wall-clock time `time`
(`Date.now() * 0.001`); `sin` and `cos` stand for `Math.sin` / `Math.cos`.
Every field is assigned with `=` from `time` alone, never read-modified. -/
def decorFrame (sin cos : ℚ → ℚ) (time : ℚ) (_s : DecorState) : DecorState :=
  { particlesRotY := time * (5 / 100)
    particlesRotX := time * (2 / 100)
    coreRotY := time * (5 / 10)
    coreRotX := sin (time * (3 / 10)) * (1 / 10)
    keyLightPosX := sin (time * (5 / 10)) * 10
    keyLightPosZ := cos (time * (5 / 10)) * 10
    rimIntensity := 8 / 10 + sin (time * 2) * (4 / 10) }

/-- Running the decorative animation over a whole sequence of frame times. -/
def runDecor (sin cos : ℚ → ℚ) (times : List ℚ) (s : DecorState) : DecorState :=
  times.foldl (fun st tm => decorFrame sin cos tm st) s

/-- C3: after any run of frames ending at wall-clock time `t`, the
decorative state equals `decorFrame` applied to `t` alone — the same state a
single frame at `t` from any other starting state produces — so it is a pure
function of elapsed time, independent of how many frames ran before. -/
theorem decor_pure_in_time (sin cos : ℚ → ℚ) (ticks : List ℚ) (t : ℚ)
    (s s' : DecorState) :
    runDecor sin cos (ticks ++ [t]) s = decorFrame sin cos t s' := by
  unfold runDecor
  rw [List.foldl_append]
  rfl

/-- Witness for C3 (no propositional hypothesis; included to exhibit a
concrete evaluation): two frame histories of different lengths ending at
time 3 agree. -/
theorem decor_pure_in_time_witness :
    runDecor id id ([1, 2] ++ [3]) ⟨0, 0, 0, 0, 0, 0, 0⟩ =
      decorFrame id id 3 ⟨9, 9, 9, 9, 9, 9, 9⟩ :=
  decor_pure_in_time id id [1, 2] 3 ⟨0, 0, 0, 0, 0, 0, 0⟩ ⟨9, 9, 9, 9, 9, 9, 9⟩

/-- The rotation state of one navigable object (`obj.rotation`). -/
structure ObjRotation where
  rotX : ℚ
  rotY : ℚ
  deriving DecidableEq, Repr

/-- One tick of the navigation-object rotation update in `animate`
(`App.jsx` lines 359-366): objects whose `userData.type` is not `'core'`
get `rotation.y += 0.01; rotation.x += 0.005`; the core is skipped. -/
def navRotFrame (type : String) (r : ObjRotation) : ObjRotation :=
  if type ≠ "core" then ⟨r.rotX + 5 / 1000, r.rotY + 1 / 100⟩ else r

/-- `n` ticks of the navigation-object rotation update. -/
def navRotFrames (type : String) : ℕ → ObjRotation → ObjRotation
  | 0, r => r
  | n + 1, r => navRotFrames type n (navRotFrame type r)

/-- C10: for a navigable object whose type is not `'core'`, `n` frames add
exactly `n * 0.005` to the x rotation and `n * 0.01` to the y rotation: the
accumulated orientation is a function of the frame count `n` (wall-clock
time never enters the update). -/
theorem navRot_counts_frames (type : String) (h : type ≠ "core") (n : ℕ)
    (r : ObjRotation) :
    navRotFrames type n r = ⟨r.rotX + n * (5 / 1000), r.rotY + n * (1 / 100)⟩ := by
  induction n generalizing r with
  | zero => simp [navRotFrames]
  | succ n ih =>
    rw [navRotFrames, navRotFrame, if_pos h, ih]
    have hx : r.rotX + 5 / 1000 + n * (5 / 1000) = r.rotX + (n + 1 : ℕ) * (5 / 1000) := by
      push_cast
      ring
    have hy : r.rotY + 1 / 100 + n * (1 / 100) = r.rotY + (n + 1 : ℕ) * (1 / 100) := by
      push_cast
      ring
    rw [hx, hy]

/-- Witness for C10: the `'gallery'`-typed projects ring after 10 frames. -/
theorem navRot_counts_frames_witness :
    navRotFrames "gallery" 10 ⟨0, 0⟩ = ⟨(10 : ℕ) * (5 / 1000), (10 : ℕ) * (1 / 100)⟩ := by
  have h := navRot_counts_frames "gallery" (by decide) 10 ⟨0, 0⟩
  rw [h]
  norm_num

/-- The payload attached to an experience node's `userData.data`
(`App.jsx` lines 238-242); the node's position is stored on the mesh. -/
structure ExpEntry where
  year : String
  role : String
  deriving DecidableEq, Repr

/-- The `userData` and position of one navigable mesh. `sectionTag` models
the `userData.section` field (`section` is a Lean keyword). -/
structure UserData where
  sectionTag : String
  type : String
  position : Vec3
  payload : Option ExpEntry
  deriving DecidableEq, Repr

/-- The `navigationObjects` array built once at scene construction
(`App.jsx` lines 187-276), in push order: the core icosahedron, the four
skills cubes, the three experience nodes, and the projects ring.  The
timeline cylinder is added to the scene but not to `navigationObjects`. -/
def navigationObjects : List UserData :=
  [⟨"about", "core", ⟨0, 0, 0⟩, none⟩,
   ⟨"skills", "embedded", ⟨-5, 2, 0⟩, none⟩,
   ⟨"skills", "ai", ⟨5, 2, 0⟩, none⟩,
   ⟨"skills", "software", ⟨0, 4, -3⟩, none⟩,
   ⟨"skills", "hardware", ⟨0, -2, 3⟩, none⟩,
   ⟨"experience", "node", ⟨-10, 1, 0⟩, some ⟨"2024", "Firmware Engineer @ Enedis"⟩⟩,
   ⟨"experience", "node", ⟨-8, -1, 0⟩, some ⟨"2023", "AI Engineer @ OCP Group"⟩⟩,
   ⟨"experience", "node", ⟨-6, 1 / 2, 0⟩, some ⟨"2021-2025", "MSc @ Grenoble INP"⟩⟩,
   ⟨"projects", "gallery", ⟨0, 8, 0⟩, none⟩]

/-- Ordering of raycaster hit records by intersection distance. -/
def distLE (a b : UserData × ℚ) : Prop := a.2 ≤ b.2

instance : DecidableRel distLE := fun a b => inferInstanceAs (Decidable (a.2 ≤ b.2))

instance : IsTotal (UserData × ℚ) distLE := ⟨fun a b => le_total a.2 b.2⟩

instance : IsTrans (UserData × ℚ) distLE := ⟨fun _ _ _ hab hbc => le_trans hab hbc⟩

/-- `raycaster.intersectObjects(objects)` by its documented contract: one
hit record per object the ray intersects (at that object's nearest
intersection distance `dist o`; `dist o = none` when the ray misses `o`),
sorted by ascending distance.  The geometric ray/mesh test itself is
three.js library code, abstracted here as the `dist` oracle. -/
def intersectObjects (dist : UserData → Option ℚ) (objs : List UserData) :
    List (UserData × ℚ) :=
  (objs.filterMap fun o => (dist o).map fun d => (o, d)).insertionSort distLE

/-- `intersects[0]`, when it exists: the pick result used by both
`handleClick` (`App.jsx` lines 287-300) and the hover pass of `animate`. -/
def pick (dist : UserData → Option ℚ) (objs : List UserData) : Option (UserData × ℚ) :=
  (intersectObjects dist objs).head?

/-- The pick misses exactly when the ray intersects no navigable object. -/
theorem pick_eq_none_iff (dist : UserData → Option ℚ) (objs : List UserData) :
    pick dist objs = none ↔ ∀ o ∈ objs, dist o = none := by
  unfold pick intersectObjects
  rw [List.head?_eq_none_iff]
  constructor
  · intro h
    have hp := List.perm_insertionSort distLE (objs.filterMap fun o => (dist o).map fun d => (o, d))
    rw [h] at hp
    have hnil : (objs.filterMap fun o => (dist o).map fun d => (o, d)) = [] :=
      hp.symm.eq_nil
    intro o ho
    have := List.filterMap_eq_nil_iff.mp hnil o ho
    cases hd : dist o with
    | none => rfl
    | some d => rw [hd] at this; simp at this
  · intro h
    have hnil : (objs.filterMap fun o => (dist o).map fun d => (o, d)) = [] := by
      apply List.filterMap_eq_nil_iff.mpr
      intro o ho
      rw [h o ho]
      rfl
    rw [hnil]
    rfl

/-- A successful pick is an actual hit: the object is one of the navigable
objects and the distance is its intersection distance. -/
theorem pick_mem {dist : UserData → Option ℚ} {objs : List UserData}
    {o : UserData} {d : ℚ} (h : pick dist objs = some (o, d)) :
    o ∈ objs ∧ dist o = some d := by
  have hmem : (o, d) ∈ intersectObjects dist objs := by
    unfold pick at h
    cases hl : intersectObjects dist objs with
    | nil => rw [hl] at h; simp at h
    | cons a l =>
      rw [hl] at h
      simp only [List.head?_cons, Option.some.injEq] at h
      rw [h]
      exact List.mem_cons_self (o, d) l
  have hmem2 : (o, d) ∈ objs.filterMap fun o => (dist o).map fun d => (o, d) :=
    (List.perm_insertionSort distLE _).mem_iff.mp hmem
  obtain ⟨a, ha, hfa⟩ := List.mem_filterMap.mp hmem2
  simp only [Option.map_eq_some'] at hfa
  obtain ⟨d', hd', heq⟩ := hfa
  injection heq with h1 h2
  subst h1
  subst h2
  exact ⟨ha, hd'⟩

/-- The pick result has minimal intersection distance among all hits. -/
theorem pick_min {dist : UserData → Option ℚ} {objs : List UserData}
    {o : UserData} {d : ℚ} (h : pick dist objs = some (o, d)) :
    ∀ o' ∈ objs, ∀ d', dist o' = some d' → d ≤ d' := by
  intro o' ho' d' hd'
  have hmem' : (o', d') ∈ intersectObjects dist objs := by
    apply (List.perm_insertionSort distLE _).mem_iff.mpr
    exact List.mem_filterMap.mpr ⟨o', ho', by rw [hd']; rfl⟩
  have hsorted : List.Sorted distLE (intersectObjects dist objs) :=
    List.sorted_insertionSort distLE _
  unfold pick at h
  cases hl : intersectObjects dist objs with
  | nil => rw [hl] at h; simp at h
  | cons a l =>
    rw [hl] at h
    simp only [List.head?_cons, Option.some.injEq] at h
    subst h
    rw [hl] at hmem' hsorted
    rcases List.mem_cons.mp hmem' with heq | htail
    · injection heq with h1 h2
      exact le_of_eq h2.symm
    · exact List.rel_of_sorted_cons hsorted _ htail

/-- C4: the pick operation returns the navigable object with the smallest
ray-intersection distance among all intersected objects, and `none` exactly
when the ray intersects no navigable object. -/
theorem pick_nearest (dist : UserData → Option ℚ) (objs : List UserData) :
    (pick dist objs = none ↔ ∀ o ∈ objs, dist o = none) ∧
    ∀ o d, pick dist objs = some (o, d) →
      o ∈ objs ∧ dist o = some d ∧
        ∀ o' ∈ objs, ∀ d', dist o' = some d' → d ≤ d' := by
  refine ⟨pick_eq_none_iff dist objs, fun o d h => ?_⟩
  obtain ⟨ho, hd⟩ := pick_mem h
  exact ⟨ho, hd, pick_min h⟩

/-- A concrete intersection-distance oracle for evaluation: the ray hits
the `'ai'` cube at distance 2 and the core at distance 5, missing the rest
(two overlapping objects along one ray). -/
def witnessDist : UserData → Option ℚ := fun o =>
  if o.type = "ai" then some 2 else if o.type = "core" then some 5 else none

/-- Witness for C4: with the core and the `'ai'` cube both on the ray at
distances 5 and 2, the pick returns the nearer `'ai'` cube, and the theorem
yields its minimality against the core hit. -/
theorem pick_nearest_witness :
    pick witnessDist navigationObjects =
        some (⟨"skills", "ai", ⟨5, 2, 0⟩, none⟩, 2) ∧ (2 : ℚ) ≤ 5 := by
  have hpick : pick witnessDist navigationObjects =
      some (⟨"skills", "ai", ⟨5, 2, 0⟩, none⟩, 2) := by decide
  refine ⟨hpick, ?_⟩
  exact ((pick_nearest witnessDist navigationObjects).2 _ _ hpick).2.2
    ⟨"about", "core", ⟨0, 0, 0⟩, none⟩ (by decide) 5 (by decide)

/-- Every navigable object built by the Scene Graph Builder carries one of
the four object-reachable section tags; none is empty, `home` or `contact`
(checked over the concrete scene list). -/
theorem navigationObjects_tags :
    ∀ o ∈ navigationObjects,
      o.sectionTag ∈ (["about", "skills", "experience", "projects"] : List String) ∧
        o.sectionTag ≠ "" ∧ o.sectionTag ≠ "home" ∧ o.sectionTag ≠ "contact" := by
  decide

/-- The click handler of `SceneManager` (`App.jsx` lines 287-300): raycast
from the pointer; on a hit, `onInteraction(section)` is invoked when the
section tag is truthy (non-empty), replacing the navigation state; on a
miss nothing happens. -/
def handleClick (dist : UserData → Option ℚ) (objs : List UserData) (nav : String) :
    String :=
  match pick dist objs with
  | none => nav
  | some (o, _) => if o.sectionTag ≠ "" then o.sectionTag else nav

/-- The `renderSection` selector of the main component (`App.jsx` lines
1338-1355): which overlay panel is mounted for the current section. -/
def renderSection (currentSection : String) : String :=
  if currentSection = "home" then "HeroSection"
  else if currentSection = "about" then "AboutSection"
  else if currentSection = "skills" then "SkillsMatrix"
  else if currentSection = "experience" then "ExperienceTimeline"
  else if currentSection = "projects" then "ProjectsGallery"
  else if currentSection = "contact" then "ContactSection"
  else "HeroSection"

/-- A click whose pick hits an object with a non-empty section tag sets the
navigation state to that tag. -/
theorem handleClick_hit {dist : UserData → Option ℚ} {objs : List UserData}
    {o : UserData} {d : ℚ} (nav : String) (h : pick dist objs = some (o, d))
    (hne : o.sectionTag ≠ "") : handleClick dist objs nav = o.sectionTag := by
  unfold handleClick
  rw [h]
  simp [hne]

/-- C5: a click whose ray hits no navigable object leaves the navigation
state unchanged and mounts the same panel (a no-op, not an error); a click
whose ray hits makes the picked object's section tag the new state. -/
theorem click_miss_noop_hit_navigates (dist : UserData → Option ℚ) (nav : String) :
    (pick dist navigationObjects = none →
      handleClick dist navigationObjects nav = nav ∧
        renderSection (handleClick dist navigationObjects nav) = renderSection nav) ∧
    ∀ o d, pick dist navigationObjects = some (o, d) →
      handleClick dist navigationObjects nav = o.sectionTag := by
  constructor
  · intro h
    have hunch : handleClick dist navigationObjects nav = nav := by
      unfold handleClick
      rw [h]
    exact ⟨hunch, by rw [hunch]⟩
  · intro o d h
    have hmem := (pick_mem h).1
    exact handleClick_hit nav h (navigationObjects_tags o hmem).2.1

/-- Witness for C5: a ray missing everything leaves the state `"home"` with
the hero panel; the overlapping-hit oracle navigates to `"skills"`. -/
theorem click_miss_noop_hit_navigates_witness :
    handleClick (fun _ => none) navigationObjects "home" = "home" ∧
      handleClick witnessDist navigationObjects "home" = "skills" := by
  constructor
  · exact ((click_miss_noop_hit_navigates (fun _ => none) "home").1 (by decide)).1
  · exact (click_miss_noop_hit_navigates witnessDist "home").2
      ⟨"skills", "ai", ⟨5, 2, 0⟩, none⟩ 2 (by decide)

/-- C9: every navigable object is tagged `about`, `skills`, `experience` or
`projects` — never `home` or `contact` — so any click that hits an object
lands the navigation state in those four sections; `home` and `contact` are
reachable only through the dock UI. -/
theorem nav_objects_sections (dist : UserData → Option ℚ) (nav : String) :
    (∀ o ∈ navigationObjects,
      o.sectionTag ∈ (["about", "skills", "experience", "projects"] : List String) ∧
        o.sectionTag ≠ "home" ∧ o.sectionTag ≠ "contact") ∧
    ∀ o d, pick dist navigationObjects = some (o, d) →
      handleClick dist navigationObjects nav ∈
        (["about", "skills", "experience", "projects"] : List String) := by
  constructor
  · intro o ho
    obtain ⟨hmem, _, hh, hc⟩ := navigationObjects_tags o ho
    exact ⟨hmem, hh, hc⟩
  · intro o d h
    have hmem := (pick_mem h).1
    rw [handleClick_hit nav h (navigationObjects_tags o hmem).2.1]
    exact (navigationObjects_tags o hmem).1

/-- Witness for C9: the core object's tag is in the four-section set, and a
concrete hit navigates into that set. -/
theorem nav_objects_sections_witness :
    (⟨"about", "core", ⟨0, 0, 0⟩, none⟩ : UserData).sectionTag ∈
        (["about", "skills", "experience", "projects"] : List String) ∧
      handleClick witnessDist navigationObjects "home" ∈
        (["about", "skills", "experience", "projects"] : List String) := by
  obtain ⟨h1, h2⟩ := nav_objects_sections witnessDist "home"
  exact ⟨(h1 ⟨"about", "core", ⟨0, 0, 0⟩, none⟩ (by decide)).1,
    h2 ⟨"skills", "ai", ⟨5, 2, 0⟩, none⟩ 2 (by decide)⟩

/-- The top-level controller state: the `currentSection` value of
`useState`, plus counters observing how many camera-transition effects have
fired and how many panel (re)mounts occurred. -/
structure AppState where
  currentSection : String
  cameraTransitionsStarted : ℕ
  panelMounts : ℕ
  deriving DecidableEq, Repr

/-- `handleNavigation = (section) => setCurrentSection(section)`
(`App.jsx` lines 1335-1337) under React's documented state semantics: a
`useState` setter called with a value identical to the current state bails
out of re-rendering, so the camera effect keyed on `[currentSection]`
(`App.jsx` line 335) does not re-run and the `useMemo`/`AnimatePresence`
panel keyed on `[currentSection]` is not remounted; a changed value
re-renders, re-runs the camera effect and swaps the panel. -/
def handleNavigation (sect : String) (s : AppState) : AppState :=
  if sect = s.currentSection then s
  else ⟨sect, s.cameraTransitionsStarted + 1, s.panelMounts + 1⟩

/-- C8: navigating to the section that is already current is idempotent:
the state is unchanged, no additional camera transition fires, and no panel
remount occurs. -/
theorem handleNavigation_idempotent (s : AppState) :
    handleNavigation s.currentSection s = s ∧
      (handleNavigation s.currentSection s).cameraTransitionsStarted =
        s.cameraTransitionsStarted ∧
      (handleNavigation s.currentSection s).panelMounts = s.panelMounts := by
  unfold handleNavigation
  simp

/-- The per-object, per-frame hover scale update of the `animate` loop
(`App.jsx` lines 368-380), one scale component (`Vector3.lerp` acts
componentwise): every navigable object first runs
`obj.scale.lerp((1,1,1), 0.1)`, and then the hovered object — the one the
pick returns, when any — additionally runs
`intersects[0].object.scale.lerp((1.2,1.2,1.2), 0.1)`. -/
def hoverFrame (hovered : Bool) (s : ℚ) : ℚ :=
  if hovered then lerpQ (lerpQ s 1 (1 / 10)) (12 / 10) (1 / 10)
  else lerpQ s 1 (1 / 10)

/-- C6 counterexample: a hovered object at scale `1.2` does not follow the
claimed single smoothing `s + (1.2 - s) * 0.1` (which would keep it at
`1.2`): the code first pulls it toward `1.0`, giving `591/500 = 1.182`. -/
theorem hover_smoothing_counterexample :
    hoverFrame true (6 / 5) = 591 / 500 ∧
      hoverFrame true (6 / 5) ≠ 6 / 5 + (12 / 10 - 6 / 5) * (1 / 10) := by
  constructor <;> norm_num [hoverFrame, lerpQ]

/-- C6 amended: a non-hovered object's scale is smoothed toward `1.0` with
factor `0.1`; the hovered object receives that same smoothing toward `1.0`
and then an additional smoothing toward `1.2` with factor `0.1`, composing
to `scale ↦ 0.81 * scale + 0.21` (fixed point `21/19`, not `1.2`). -/
theorem hover_smoothing_amended (s : ℚ) :
    hoverFrame false s = s + (1 - s) * (1 / 10) ∧
      hoverFrame true s = (81 / 100) * s + 21 / 100 := by
  constructor
  · simp [hoverFrame, lerpQ]
  · simp [hoverFrame, lerpQ]
    ring

end Portfolio3D
